import Mathlib

/-!
Verification of the persistence-and-business-rule core of the idle-goods
exchange platform (entities.py / controllers.py).

Shallow embedding conventions:
- Python entity classes become Lean structures; all entity fields are
  strings (or lists of strings), matching the source.
- JSON dictionaries produced by `to_dict` / consumed by `from_dict` are
  modelled per entity kind as a structure whose optional keys (those read
  with `dict.get(key, default)` in the source) are `Option`-valued; a
  `none` value models an absent key.
- `datetime.now()` timestamps are modelled by threading an explicit
  `now : String` argument into the constructors that call it.
- `uuid.uuid4()` fresh identifiers are modelled by an explicit
  `fresh_id : String` argument.
- The on-disk data directory is modelled as a function
  `String → Option (List δ)` from file name to the stored array of
  records (`none` = file does not exist).
- Each controller method becomes a function from its in-memory collection
  (and, where the claim needs it, the store) to a `Bool × collection`
  result, mirroring the boolean-return convention of the source.
-/

/-- Entity `User` from entities.py. -/
structure User where
  user_id : String
  username : String
  password : String
  contact_info : String
  role : String
deriving Repr, DecidableEq

/-- JSON record for a `User`; `role` is read with a default in the source,
so it is optional here. -/
structure UserDict where
  user_id : String
  username : String
  password : String
  contact_info : String
  role : Option String
deriving Repr, DecidableEq

/-- `User.to_dict` from entities.py. -/
def User.to_dict (u : User) : UserDict :=
  { user_id := u.user_id, username := u.username, password := u.password,
    contact_info := u.contact_info, role := some u.role }

/-- `User.from_dict` from entities.py: `role` defaults to "普通用户". -/
def User.from_dict (d : UserDict) : User :=
  { user_id := d.user_id, username := d.username, password := d.password,
    contact_info := d.contact_info, role := d.role.getD "普通用户" }

/-- Entity `Item` from entities.py. -/
structure Item where
  item_id : String
  item_name : String
  description : String
  item_type : String
  image : String
  contact_info : String
  status : String
  owner_id : String
  create_time : String
deriving Repr, DecidableEq

/-- JSON record for an `Item`; `image`, `status`, `create_time` are read
with defaults in the source, so they are optional here. -/
structure ItemDict where
  item_id : String
  item_name : String
  description : String
  item_type : String
  image : Option String
  contact_info : String
  status : Option String
  owner_id : String
  create_time : Option String
deriving Repr, DecidableEq

/-- `Item.to_dict` from entities.py. -/
def Item.to_dict (i : Item) : ItemDict :=
  { item_id := i.item_id, item_name := i.item_name, description := i.description,
    item_type := i.item_type, image := some i.image, contact_info := i.contact_info,
    status := some i.status, owner_id := i.owner_id, create_time := some i.create_time }

/-- `Item.from_dict` from entities.py: `image` defaults to "", `status`
to "已发布", `create_time` to the current time (`now`). -/
def Item.from_dict (now : String) (d : ItemDict) : Item :=
  { item_id := d.item_id, item_name := d.item_name, description := d.description,
    item_type := d.item_type, image := d.image.getD "",
    contact_info := d.contact_info, status := d.status.getD "已发布",
    owner_id := d.owner_id, create_time := d.create_time.getD now }

/-- Entity `ItemType` from entities.py. -/
structure ItemType where
  type_id : String
  type_name : String
  attributes : List String
deriving Repr, DecidableEq

/-- JSON record for an `ItemType`; all keys are required in the source. -/
structure ItemTypeDict where
  type_id : String
  type_name : String
  attributes : List String
deriving Repr, DecidableEq

/-- `ItemType.to_dict` from entities.py. -/
def ItemType.to_dict (t : ItemType) : ItemTypeDict :=
  { type_id := t.type_id, type_name := t.type_name, attributes := t.attributes }

/-- `ItemType.from_dict` from entities.py. -/
def ItemType.from_dict (d : ItemTypeDict) : ItemType :=
  { type_id := d.type_id, type_name := d.type_name, attributes := d.attributes }

/-- Entity `Demand` from entities.py. -/
structure Demand where
  demand_id : String
  demand_type : String
  description : String
  publisher_id : String
  create_time : String
deriving Repr, DecidableEq

/-- JSON record for a `Demand`; `create_time` is read with a default. -/
structure DemandDict where
  demand_id : String
  demand_type : String
  description : String
  publisher_id : String
  create_time : Option String
deriving Repr, DecidableEq

/-- `Demand.to_dict` from entities.py. -/
def Demand.to_dict (d : Demand) : DemandDict :=
  { demand_id := d.demand_id, demand_type := d.demand_type,
    description := d.description, publisher_id := d.publisher_id,
    create_time := some d.create_time }

/-- `Demand.from_dict` from entities.py. -/
def Demand.from_dict (now : String) (d : DemandDict) : Demand :=
  { demand_id := d.demand_id, demand_type := d.demand_type,
    description := d.description, publisher_id := d.publisher_id,
    create_time := d.create_time.getD now }

/-- Entity `Application` from entities.py. -/
structure Application where
  application_id : String
  app_type : String
  content : String
  app_status : String
  applicant_id : String
  create_time : String
deriving Repr, DecidableEq

/-- JSON record for an `Application`; `app_status` and `create_time` are
read with defaults in the source. -/
structure ApplicationDict where
  application_id : String
  app_type : String
  content : String
  app_status : Option String
  applicant_id : String
  create_time : Option String
deriving Repr, DecidableEq

/-- `Application.to_dict` from entities.py. -/
def Application.to_dict (a : Application) : ApplicationDict :=
  { application_id := a.application_id, app_type := a.app_type,
    content := a.content, app_status := some a.app_status,
    applicant_id := a.applicant_id, create_time := some a.create_time }

/-- `Application.from_dict` from entities.py: `app_status` defaults to
"待处理". -/
def Application.from_dict (now : String) (d : ApplicationDict) : Application :=
  { application_id := d.application_id, app_type := d.app_type,
    content := d.content, app_status := d.app_status.getD "待处理",
    applicant_id := d.applicant_id, create_time := d.create_time.getD now }

/-- A data directory holding, per file name, the stored array of records
of one entity kind (`none` = no such file). -/
def Store (δ : Type) := String → Option (List δ)

/-- The empty data directory (first run: no file exists). -/
def emptyStore (δ : Type) : Store δ := fun _ => none

/-- `DataManager.save_data` from controllers.py: serializes the full list
under the given file name, overwriting any prior content. -/
def save_data {α δ : Type} (toDict : α → δ) (store : Store δ)
    (filename : String) (data : List α) : Store δ :=
  fun n => if n = filename then some (data.map toDict) else store n

/-- `DataManager.load_data` from controllers.py: returns the deserialized
list, or `[]` when the file does not exist. -/
def load_data {α δ : Type} (fromDict : δ → α) (store : Store δ)
    (filename : String) : List α :=
  match store filename with
  | none => []
  | some ds => ds.map fromDict

theorem user_from_to_dict (u : User) : User.from_dict (User.to_dict u) = u := by
  cases u; rfl

theorem item_from_to_dict (now : String) (i : Item) :
    Item.from_dict now (Item.to_dict i) = i := by
  cases i; rfl

theorem itemtype_from_to_dict (t : ItemType) :
    ItemType.from_dict (ItemType.to_dict t) = t := by
  cases t; rfl

theorem demand_from_to_dict (now : String) (d : Demand) :
    Demand.from_dict now (Demand.to_dict d) = d := by
  cases d; rfl

theorem application_from_to_dict (now : String) (a : Application) :
    Application.from_dict now (Application.to_dict a) = a := by
  cases a; rfl

/-- C4: for every collection name and every list of entities of each of
the five kinds, `save_data` followed by `load_data` on the same name
returns exactly the sequence saved (same length, order, ids and field
values); and records missing optional fields deserialize with the
documented defaults (role "普通用户", image "", status "已发布",
app_status "待处理") instead of failing. -/
theorem save_load_round_trip (name now : String)
    (su : Store UserDict) (si : Store ItemDict) (st : Store ItemTypeDict)
    (sd : Store DemandDict) (sa : Store ApplicationDict)
    (us : List User) (is : List Item) (ts : List ItemType)
    (ds : List Demand) (as2 : List Application)
    (a b c d e f g : String) :
    load_data User.from_dict (save_data User.to_dict su name us) name = us ∧
    load_data (Item.from_dict now) (save_data Item.to_dict si name is) name = is ∧
    load_data ItemType.from_dict (save_data ItemType.to_dict st name ts) name = ts ∧
    load_data (Demand.from_dict now) (save_data Demand.to_dict sd name ds) name = ds ∧
    load_data (Application.from_dict now)
      (save_data Application.to_dict sa name as2) name = as2 ∧
    (User.from_dict ⟨a, b, c, d, none⟩).role = "普通用户" ∧
    (Item.from_dict now ⟨a, b, c, d, none, e, none, f, none⟩).image = "" ∧
    (Item.from_dict now ⟨a, b, c, d, none, e, none, f, none⟩).status = "已发布" ∧
    (Application.from_dict now ⟨a, b, c, none, g, none⟩).app_status = "待处理" ∧
    load_data User.from_dict (save_data User.to_dict su name []) name =
      ([] : List User) := by
  have h1 : User.from_dict ∘ User.to_dict = id := funext user_from_to_dict
  have h2 : Item.from_dict now ∘ Item.to_dict = id := funext (item_from_to_dict now)
  have h3 : ItemType.from_dict ∘ ItemType.to_dict = id := funext itemtype_from_to_dict
  have h4 : Demand.from_dict now ∘ Demand.to_dict = id := funext (demand_from_to_dict now)
  have h5 : Application.from_dict now ∘ Application.to_dict = id :=
    funext (application_from_to_dict now)
  refine ⟨?_, ?_, ?_, ?_, ?_, rfl, rfl, rfl, rfl, ?_⟩ <;>
    simp [load_data, save_data, List.map_map, h1, h2, h3, h4, h5]

/-- The `User` record built by `AuthController.register` in
controllers.py (role is fixed to "普通用户"). -/
def ordinary_user (fresh_id username password contact_info : String) : User :=
  { user_id := fresh_id, username := username, password := password,
    contact_info := contact_info, role := "普通用户" }

/-- `AuthController.register` from controllers.py: fails when a stored
user already has exactly this username; otherwise appends a new user with
role "普通用户" and persists. The fresh uuid is the `fresh_id` argument. -/
def register (users : List User)
    (fresh_id username password contact_info : String) : Bool × List User :=
  if users.any (fun u => u.username == username) then (false, users)
  else (true, users ++ [ordinary_user fresh_id username password contact_info])

/-- The administrator record seeded by `AuthController._initialize_admin`
in controllers.py. -/
def seeded_admin (fresh_id : String) : User :=
  { user_id := fresh_id, username := "admin", password := "123456",
    contact_info := "系统管理员", role := "管理员" }

/-- `AuthController._initialize_admin` from controllers.py: appends the
seeded administrator when no user named "admin" exists. -/
def init_admin (fresh_id : String) (users : List User) : List User :=
  if users.any (fun u => u.username == "admin") then users
  else users ++ [seeded_admin fresh_id]

/-- `AuthController.__init__` from controllers.py: loads the user list
from the store, then ensures the admin account exists. -/
def auth_init (fresh_id : String) (store : Store UserDict) : List User :=
  init_admin fresh_id (load_data User.from_dict store "users")

theorem init_admin_has_admin (fid : String) (users : List User) :
    ∃ u ∈ init_admin fid users, u.username = "admin" := by
  by_cases hc : users.any (fun u => u.username == "admin") = true
  · obtain ⟨u, hu, he⟩ := by simpa using hc
    exact ⟨u, by simp [init_admin, hc, hu], he⟩
  · refine ⟨seeded_admin fid, ?_, rfl⟩
    simp [init_admin, hc]

theorem init_admin_of_mem (fid : String) (users : List User)
    (h : ∃ u ∈ users, u.username = "admin") : init_admin fid users = users := by
  obtain ⟨u, hu, he⟩ := h
  have hc : users.any (fun u => u.username == "admin") = true := by
    simp only [List.any_eq_true]
    exact ⟨u, hu, by simp [he]⟩
  simp [init_admin, hc]

/-- C5: register fails and leaves the user collection unchanged when some
stored user already has exactly this username (case-sensitive equality);
otherwise it appends exactly one new user with role "普通用户"; and after
a success, any subsequent registration with the same username fails and
changes nothing. -/
theorem register_unique_username (users : List User)
    (fresh_id username password contact_info : String) :
    ((∃ u ∈ users, u.username = username) →
      register users fresh_id username password contact_info = (false, users)) ∧
    ((¬ ∃ u ∈ users, u.username = username) →
      register users fresh_id username password contact_info =
        (true, users ++ [ordinary_user fresh_id username password contact_info]) ∧
      (ordinary_user fresh_id username password contact_info).role = "普通用户") ∧
    ((register users fresh_id username password contact_info).1 = true →
      ∀ fid2 p2 c2,
        register (register users fresh_id username password contact_info).2
          fid2 username p2 c2 =
          (false, (register users fresh_id username password contact_info).2)) := by
  have hany : users.any (fun u => u.username == username) = true ↔
      ∃ u ∈ users, u.username = username := by
    simp [List.any_eq_true]
  refine ⟨?_, ?_, ?_⟩
  · intro h
    simp [register, hany.mpr h]
  · intro h
    have hc : ¬ (users.any (fun u => u.username == username) = true) :=
      fun hc => h (hany.mp hc)
    exact ⟨by simp [register, hc], rfl⟩
  · intro h fid2 p2 c2
    by_cases hc : users.any (fun u => u.username == username) = true
    · simp [register, hc] at h
    · have h2 : (register users fresh_id username password contact_info).2 =
          users ++ [ordinary_user fresh_id username password contact_info] := by
        simp [register, hc]
      rw [h2]
      have hc2 : ((users ++ [ordinary_user fresh_id username password
          contact_info]).any (fun u => u.username == username)) = true := by
        simp [ordinary_user]
      simp [register, hc2]

/-- Witness for C5 at a concrete input. -/
theorem register_unique_username_witness :
    register ([] : List User) "f1" "bob" "pw" "c1" =
      (true, [ordinary_user "f1" "bob" "pw" "c1"]) ∧
    register [ordinary_user "f1" "bob" "pw" "c1"] "f2" "bob" "pw2" "c2" =
      (false, [ordinary_user "f1" "bob" "pw" "c1"]) := by
  refine ⟨((register_unique_username [] "f1" "bob" "pw" "c1").2.1 (by simp)).1, ?_⟩
  exact (register_unique_username [ordinary_user "f1" "bob" "pw" "c1"]
    "f2" "bob" "pw2" "c2").1 ⟨ordinary_user "f1" "bob" "pw" "c1", by simp, rfl⟩

/-- C6: constructing the Auth Service over empty storage yields exactly
one user, the seeded "admin" with role "管理员" and the fixed default
password "123456"; constructing over storage whose loaded users already
contain one named "admin" adds no user; and re-constructing after
persisting the collection reproduces it unchanged (idempotent across
restarts). -/
theorem auth_init_seeds_admin (fid fid2 : String) (store : Store UserDict) :
    auth_init fid (emptyStore UserDict) = [seeded_admin fid] ∧
    (seeded_admin fid).username = "admin" ∧
    (seeded_admin fid).role = "管理员" ∧
    (seeded_admin fid).password = "123456" ∧
    ((∃ u ∈ load_data User.from_dict store "users", u.username = "admin") →
      auth_init fid store = load_data User.from_dict store "users") ∧
    auth_init fid2
        (save_data User.to_dict store "users" (auth_init fid store)) =
      auth_init fid store := by
  refine ⟨?_, rfl, rfl, rfl, ?_, ?_⟩
  · simp [auth_init, init_admin, load_data, emptyStore]
  · intro h
    exact init_admin_of_mem fid _ h
  · have h1 : User.from_dict ∘ User.to_dict = id := funext user_from_to_dict
    have hload : load_data User.from_dict
        (save_data User.to_dict store "users" (auth_init fid store)) "users" =
        auth_init fid store := by
      simp [load_data, save_data, List.map_map, h1]
    show init_admin fid2 (load_data User.from_dict
      (save_data User.to_dict store "users" (auth_init fid store)) "users") =
      auth_init fid store
    rw [hload]
    exact init_admin_of_mem fid2 _ (init_admin_has_admin fid _)

/-- A stored users.json record holding one administrator, used to witness
C6 at a concrete input. -/
def admin_dict : UserDict :=
  { user_id := "a0", username := "admin", password := "p",
    contact_info := "c", role := some "管理员" }

/-- Witness for C6 at a concrete input. -/
theorem auth_init_seeds_admin_witness :
    auth_init "f2" (fun _ => some [admin_dict]) =
      load_data User.from_dict (fun _ => some [admin_dict]) "users" :=
  (auth_init_seeds_admin "f2" "f2" (fun _ => some [admin_dict])).2.2.2.2.1
    ⟨User.from_dict admin_dict, by simp [load_data], rfl⟩

/-- The `Item` record built by `ItemController.add_item` in
controllers.py (status starts at "已发布"). -/
def new_item (fresh_id now item_name description item_type contact_info
    owner_id image : String) : Item :=
  { item_id := fresh_id, item_name := item_name, description := description,
    item_type := item_type, image := image, contact_info := contact_info,
    status := "已发布", owner_id := owner_id, create_time := now }

/-- `ItemController.add_item` from controllers.py: always appends a new
published item and reports success. -/
def add_item (items : List Item) (fresh_id now item_name description
    item_type contact_info owner_id image : String) : Bool × List Item :=
  (true, items ++ [new_item fresh_id now item_name description item_type
    contact_info owner_id image])

/-- The lookup predicate shared by `delete_item` and `modify_item` in
controllers.py: id match and ownership in one conjunction. -/
def owned_pred (item_id user_id : String) (i : Item) : Bool :=
  i.item_id == item_id && i.owner_id == user_id

/-- Removes the first element satisfying `p` (models
`self.items.remove(item)` where `item` is the first match found by
`next(...)`; Python `list.remove` compares by object identity here since
`Item` defines no equality, so exactly that first match is removed). -/
def remove_first {α : Type} (p : α → Bool) : List α → List α
  | [] => []
  | x :: xs => if p x then xs else x :: remove_first p xs

/-- `ItemController.delete_item` from controllers.py: deletes the item
with matching id and owner, else fails with the single `False` signal. -/
def delete_item (items : List Item) (item_id user_id : String) :
    Bool × List Item :=
  match items.find? (owned_pred item_id user_id) with
  | none => (false, items)
  | some _ => (true, remove_first (owned_pred item_id user_id) items)

/-- One `setattr(item, key, value)` step of `ItemController.modify_item`:
a recognized field name (one the `Item` class has) is overwritten, any
other key is silently ignored (`hasattr` guard). -/
def set_field (i : Item) (kv : String × String) : Item :=
  if kv.1 = "item_id" then { i with item_id := kv.2 }
  else if kv.1 = "item_name" then { i with item_name := kv.2 }
  else if kv.1 = "description" then { i with description := kv.2 }
  else if kv.1 = "item_type" then { i with item_type := kv.2 }
  else if kv.1 = "image" then { i with image := kv.2 }
  else if kv.1 = "contact_info" then { i with contact_info := kv.2 }
  else if kv.1 = "status" then { i with status := kv.2 }
  else if kv.1 = "owner_id" then { i with owner_id := kv.2 }
  else if kv.1 = "create_time" then { i with create_time := kv.2 }
  else i

/-- The `for key, value in kwargs.items()` loop of `modify_item`. -/
def apply_updates (i : Item) (kwargs : List (String × String)) : Item :=
  kwargs.foldl set_field i

/-- Updates the first element satisfying `p` in place (the object found
by `next(...)` is mutated by `setattr`). -/
def update_first {α : Type} (p : α → Bool) (f : α → α) : List α → List α
  | [] => []
  | x :: xs => if p x then f x :: xs else x :: update_first p f xs

/-- `ItemController.modify_item` from controllers.py: same ownership gate
as `delete_item`; on success applies the recognized updates to the found
item and persists. -/
def modify_item (items : List Item) (item_id user_id : String)
    (kwargs : List (String × String)) : Bool × List Item :=
  match items.find? (owned_pred item_id user_id) with
  | none => (false, items)
  | some _ =>
    (true, update_first (owned_pred item_id user_id)
      (fun i => apply_updates i kwargs) items)

/-- `ItemController.get_all_items` from controllers.py: all items whose
status is "已发布". -/
def get_all_items (items : List Item) : List Item :=
  items.filter (fun i => i.status == "已发布")

/-- `ItemController.search_items` from controllers.py. `none` models a
Python `None` argument; the truthiness tests `if item_type and ...` and
`if keyword` make the empty string behave like `None`. -/
def search_items (items : List Item)
    (item_type keyword : Option String) : List Item :=
  let r1 : List Item :=
    match item_type with
    | some t =>
      if t ≠ "" ∧ t ≠ "所有类型" then
        items.filter (fun i => i.item_type == t)
      else items
    | none => items
  let r2 : List Item :=
    match keyword with
    | some k =>
      if k ≠ "" then
        r1.filter (fun i =>
          decide (k.toList <:+: i.item_name.toList) ||
          decide (k.toList <:+: i.description.toList))
      else r1
    | none => r1
  r2.filter (fun i => i.status == "已发布")

/-- `ItemController.get_user_items` from controllers.py: every item of
the given owner, regardless of status. -/
def get_user_items (items : List Item) (user_id : String) : List Item :=
  items.filter (fun i => i.owner_id == user_id)

/-- C1: on every item collection, `delete_item` and `modify_item` succeed
exactly when an item with that id exists whose owner is the requestor;
in every failing case both return the same single `False` signal and
leave the collection unchanged. -/
theorem delete_modify_owner_gate (items : List Item)
    (item_id user_id : String) (kwargs : List (String × String)) :
    ((delete_item items item_id user_id).1 = true ↔
      ∃ i ∈ items, i.item_id = item_id ∧ i.owner_id = user_id) ∧
    ((modify_item items item_id user_id kwargs).1 = true ↔
      ∃ i ∈ items, i.item_id = item_id ∧ i.owner_id = user_id) ∧
    (delete_item items item_id user_id).1 =
      (modify_item items item_id user_id kwargs).1 ∧
    ((delete_item items item_id user_id).1 = false →
      (delete_item items item_id user_id).2 = items) ∧
    ((modify_item items item_id user_id kwargs).1 = false →
      (modify_item items item_id user_id kwargs).2 = items) := by
  have hiff : (items.find? (owned_pred item_id user_id)).isSome ↔
      ∃ i ∈ items, i.item_id = item_id ∧ i.owner_id = user_id := by
    simp [List.find?_isSome, owned_pred]
  cases h : items.find? (owned_pred item_id user_id) with
  | none =>
    have hne : ¬ ∃ i ∈ items, i.item_id = item_id ∧ i.owner_id = user_id := by
      rw [← hiff, h]
      simp
    simp [delete_item, modify_item, h, hne]
  | some a =>
    have hex : ∃ i ∈ items, i.item_id = item_id ∧ i.owner_id = user_id := by
      rw [← hiff, h]
      simp
    simp [delete_item, modify_item, h, hex]

/-- Witness for C1 at a concrete input. -/
theorem delete_modify_owner_gate_witness :
    (delete_item [] "i1" "u1").2 = [] ∧ (modify_item [] "i1" "u1" []).2 = [] := by
  have h := delete_modify_owner_gate [] "i1" "u1" []
  exact ⟨h.2.2.2.1 (by decide), h.2.2.2.2 (by decide)⟩

/-- Counterexample for C3: the owner can reassign `owner_id` through
`modify_item`, because `owner_id` is an attribute the `hasattr` guard
recognizes; the field is not immutable. -/
theorem modify_item_changes_owner :
    ((modify_item [new_item "i1" "t0" "n" "d" "ty" "c" "u1" ""] "i1" "u1"
      [("owner_id", "u2")]).2).map Item.owner_id = ["u2"] ∧
    (new_item "i1" "t0" "n" "d" "ty" "c" "u1" "").owner_id = "u1" := by
  decide

theorem set_field_owner (i : Item) (kv : String × String)
    (h : kv.1 ≠ "owner_id") : (set_field i kv).owner_id = i.owner_id := by
  unfold set_field
  split_ifs <;> rfl

theorem apply_updates_owner (kwargs : List (String × String))
    (h : ∀ kv ∈ kwargs, kv.1 ≠ "owner_id") (i : Item) :
    (apply_updates i kwargs).owner_id = i.owner_id := by
  induction kwargs generalizing i with
  | nil => rfl
  | cons kv rest ih =>
    have h1 : (set_field i kv).owner_id = i.owner_id :=
      set_field_owner i kv (h kv (by simp))
    have h2 := ih (fun x hx => h x (by simp [hx])) (set_field i kv)
    simpa [apply_updates, h1] using h2

theorem update_first_map {α β : Type} (p : α → Bool) (f : α → α)
    (g : α → β) (hg : ∀ x, g (f x) = g x) :
    ∀ l : List α, (update_first p f l).map g = l.map g := by
  intro l
  induction l with
  | nil => rfl
  | cons x xs ih =>
    by_cases hp : p x = true
    · simp [update_first, hp, hg]
    · simp [update_first, hp, ih]

/-- C3 amended: `modify_item` preserves every item's `owner_id` whenever
the key "owner_id" does not occur in the field updates; when it does
occur, the (necessarily owning) caller reassigns ownership, since the
`hasattr` guard recognizes `owner_id` like any other `Item` attribute. -/
theorem modify_item_preserves_owner_without_key (items : List Item)
    (item_id user_id : String) (kwargs : List (String × String))
    (h : ∀ kv ∈ kwargs, kv.1 ≠ "owner_id") :
    ((modify_item items item_id user_id kwargs).2).map Item.owner_id =
      items.map Item.owner_id := by
  unfold modify_item
  cases hf : items.find? (owned_pred item_id user_id) with
  | none => rfl
  | some a =>
    exact update_first_map _ _ _
      (fun x => apply_updates_owner kwargs h x) items

/-- Witness for the amended C3 at a concrete input. -/
theorem modify_item_preserves_owner_witness :
    ((modify_item [new_item "i1" "t0" "n" "d" "ty" "c" "u1" ""] "i1" "u1"
      [("status", "已下架")]).2).map Item.owner_id = ["u1"] := by
  have h := modify_item_preserves_owner_without_key
    [new_item "i1" "t0" "n" "d" "ty" "c" "u1" ""] "i1" "u1"
    [("status", "已下架")] (by decide)
  simpa using h

/-- C8: every item returned by `search_items`, for any combination of
type filter and keyword filter (absent, empty, sentinel or concrete), is
also returned by `get_all_items` — the search result is always a subset
of the published-items list. -/
theorem search_subset_published (items : List Item) (t k : Option String)
    (x : Item) (hx : x ∈ search_items items t k) : x ∈ get_all_items items := by
  unfold get_all_items
  rcases t with _ | tv <;> rcases k with _ | kv <;>
    simp only [search_items, List.mem_filter] at hx <;>
  all_goals
    first
      | (split_ifs at hx <;> simp_all [List.mem_filter])
      | simp_all [List.mem_filter]

/-- Witness for C8 at a concrete input. -/
theorem search_subset_published_witness :
    new_item "i1" "t0" "n" "d" "ty" "c" "u1" "" ∈
      get_all_items [new_item "i1" "t0" "n" "d" "ty" "c" "u1" ""] :=
  search_subset_published [new_item "i1" "t0" "n" "d" "ty" "c" "u1" ""]
    none none (new_item "i1" "t0" "n" "d" "ty" "c" "u1" "") (by decide)

/-- C10: `search_items` treats the empty string exactly like an absent
(`None`) filter, in either argument position, because of the Python
truthiness tests. -/
theorem search_empty_string_no_filter (items : List Item)
    (t k : Option String) :
    search_items items (some "") k = search_items items none k ∧
    search_items items t (some "") = search_items items t none := by
  constructor
  · simp [search_items]
  · rcases t with _ | tv <;> simp [search_items]

/-- The six default item types seeded by
`TypeController._initialize_default_types` in controllers.py. -/
def default_types : List ItemType :=
  [⟨"1", "书籍", ["作者", "出版社", "ISBN", "新旧程度"]⟩,
   ⟨"2", "宿舍用品", ["品牌", "新旧程度", "尺寸"]⟩,
   ⟨"3", "电子产品", ["品牌", "型号", "新旧程度"]⟩,
   ⟨"4", "服装", ["品牌", "尺码", "新旧程度"]⟩,
   ⟨"5", "体育用品", ["品牌", "新旧程度"]⟩,
   ⟨"6", "其他", ["备注"]⟩]

/-- `TypeController._initialize_default_types` from controllers.py:
extends the collection with the six defaults only when it is empty. -/
def init_default_types (types : List ItemType) : List ItemType :=
  if types.isEmpty then types ++ default_types else types

/-- The `ItemType` record built by `TypeController.add_item_type`. -/
def new_type (fresh_id type_name : String) (attributes : List String) : ItemType :=
  { type_id := fresh_id, type_name := type_name, attributes := attributes }

/-- `TypeController.add_item_type` from controllers.py: fails when an
existing type already has exactly this name; else appends and persists. -/
def add_item_type (types : List ItemType) (fresh_id type_name : String)
    (attributes : List String) : Bool × List ItemType :=
  if types.any (fun t => t.type_name == type_name) then (false, types)
  else (true, types ++ [new_type fresh_id type_name attributes])

/-- The partial update of `TypeController.modify_item_type`: the Python
truthiness tests `if type_name:` / `if attributes:` skip `None`, the
empty string and the empty list. -/
def apply_type_updates (type_name : Option String)
    (attributes : Option (List String)) (t : ItemType) : ItemType :=
  let t1 : ItemType :=
    match type_name with
    | some n => if n ≠ "" then { t with type_name := n } else t
    | none => t
  match attributes with
  | some al => if al ≠ [] then { t1 with attributes := al } else t1
  | none => t1

/-- `TypeController.modify_item_type` from controllers.py: looks up by
type id only — it performs no name-uniqueness check. -/
def modify_item_type (types : List ItemType) (type_id : String)
    (type_name : Option String) (attributes : Option (List String)) :
    Bool × List ItemType :=
  match types.find? (fun t => t.type_id == type_id) with
  | none => (false, types)
  | some _ =>
    (true, update_first (fun t => t.type_id == type_id)
      (apply_type_updates type_name attributes) types)

/-- `TypeController.get_all_types` from controllers.py. -/
def get_all_types (types : List ItemType) : List ItemType := types

/-- Counterexample for C7: `modify_item_type` checks only the type id,
so renaming a type to a name already in use succeeds and leaves two
types with the same name — the uniqueness invariant is not preserved by
every Catalog operation. -/
theorem modify_type_breaks_uniqueness :
    ((([⟨"1", "A", []⟩, ⟨"2", "B", []⟩] : List ItemType).map
      ItemType.type_name).Nodup) ∧
    (modify_item_type [⟨"1", "A", []⟩, ⟨"2", "B", []⟩] "2"
      (some "A") none).1 = true ∧
    ¬ ((((modify_item_type [⟨"1", "A", []⟩, ⟨"2", "B", []⟩] "2"
      (some "A") none).2).map ItemType.type_name).Nodup) := by
  decide

/-- C7 amended: `add_item_type` fails and leaves the type collection
unchanged whenever some existing type already has that exact name
(case-sensitive), and seeding and `add_item_type` preserve name
uniqueness; `modify_item_type`, however, checks only the type id and can
rename a type to a name already in use, breaking uniqueness. -/
theorem add_type_unique_names (types : List ItemType)
    (fid name : String) (attrs : List String) :
    ((∃ t ∈ types, t.type_name = name) →
      add_item_type types fid name attrs = (false, types)) ∧
    ((types.map ItemType.type_name).Nodup →
      (((add_item_type types fid name attrs).2).map ItemType.type_name).Nodup) ∧
    ((types.map ItemType.type_name).Nodup →
      ((init_default_types types).map ItemType.type_name).Nodup) := by
  have hany : types.any (fun t => t.type_name == name) = true ↔
      ∃ t ∈ types, t.type_name = name := by
    simp [List.any_eq_true]
  refine ⟨?_, ?_, ?_⟩
  · intro h
    simp [add_item_type, hany.mpr h]
  · intro hnd
    by_cases hc : types.any (fun t => t.type_name == name) = true
    · simpa [add_item_type, hc] using hnd
    · have hnot : ∀ t ∈ types, t.type_name ≠ name :=
        fun t ht he => hc (hany.mpr ⟨t, ht, he⟩)
    
      simp only [add_item_type, hc, if_neg, Bool.false_eq_true,
        not_false_iff, ite_false]
      simp only [List.map_append, List.map_cons, List.map_nil]
      rw [List.nodup_append]
      refine ⟨hnd, List.nodup_singleton _, ?_⟩
      intro x hx hmem
      obtain ⟨t, ht, rfl⟩ := List.mem_map.mp hx
      have h1 : t.type_name = name := by simpa [new_type] using hmem
      exact hnot t ht h1
  · intro hnd
    by_cases he : types.isEmpty
    · have hemp : types = [] := List.isEmpty_iff.mp he
      subst hemp
      decide
    · simpa [init_default_types, he] using hnd

/-- Witness for the amended C7 at a concrete input. -/
theorem add_type_unique_names_witness :
    add_item_type [new_type "1" "A" []] "2" "A" ["x"] =
      (false, [new_type "1" "A" []]) ∧
    (((add_item_type [new_type "1" "A" []] "2" "C" []).2).map
      ItemType.type_name).Nodup := by
  have h := add_type_unique_names [new_type "1" "A" []] "2" "A" ["x"]
  have h2 := add_type_unique_names [new_type "1" "A" []] "2" "C" []
  exact ⟨h.1 ⟨new_type "1" "A" [], by simp, rfl⟩, h2.2.1 (by decide)⟩

/-- The `Demand` record built by `DemandController.add_demand`. -/
def new_demand (fresh_id now demand_type description publisher_id : String) :
    Demand :=
  { demand_id := fresh_id, demand_type := demand_type,
    description := description, publisher_id := publisher_id,
    create_time := now }

/-- `DemandController.add_demand` from controllers.py. -/
def add_demand (demands : List Demand)
    (fresh_id now demand_type description publisher_id : String) :
    Bool × List Demand :=
  (true, demands ++ [new_demand fresh_id now demand_type description
    publisher_id])

/-- `DemandController.get_all_demands` from controllers.py. -/
def get_all_demands (demands : List Demand) : List Demand := demands

/-- `DemandController.get_user_demands` from controllers.py. -/
def get_user_demands (demands : List Demand) (user_id : String) :
    List Demand :=
  demands.filter (fun d => d.publisher_id == user_id)

/-- The `Application` record built by
`ApplicationController.add_application` (status starts at "待处理"). -/
def new_application (fresh_id now app_type content applicant_id : String) :
    Application :=
  { application_id := fresh_id, app_type := app_type, content := content,
    app_status := "待处理", applicant_id := applicant_id,
    create_time := now }

/-- `ApplicationController.add_application` from controllers.py. -/
def add_application (apps : List Application)
    (fresh_id now app_type content applicant_id : String) :
    Bool × List Application :=
  (true, apps ++ [new_application fresh_id now app_type content
    applicant_id])

/-- `ApplicationController.get_pending_applications` from controllers.py. -/
def get_pending_applications (apps : List Application) : List Application :=
  apps.filter (fun a => a.app_status == "待处理")

/-- `ApplicationController.process_application` from controllers.py:
looks up by id only and overwrites `app_status` unconditionally — it
never inspects the current status. -/
def process_application (apps : List Application)
    (application_id status : String) : Bool × List Application :=
  match apps.find? (fun a => a.application_id == application_id) with
  | none => (false, apps)
  | some _ =>
    (true, update_first (fun a => a.application_id == application_id)
      (fun a => { a with app_status := status }) apps)

/-- An already-approved application, used to refute C2. -/
def decided_app : Application :=
  { application_id := "a1", app_type := "t", content := "c",
    app_status := "通过", applicant_id := "u1", create_time := "tm" }

/-- Counterexample for C2: submitting an application and deciding it
twice — approve, then reject — changes its status a second time after it
is already non-pending, because `process_application` overwrites the
status unconditionally. -/
theorem process_overwrites_nonpending :
    ((process_application
      (add_application [] "a1" "tm" "t" "c" "u1").2 "a1" "通过").2).map
        Application.app_status = ["通过"] ∧
    ((process_application
      ((process_application
        (add_application [] "a1" "tm" "t" "c" "u1").2 "a1" "通过").2)
      "a1" "拒绝").2).map Application.app_status = ["拒绝"] := by
  decide

theorem find?_update_first {α : Type} (p : α → Bool) (f : α → α)
    (hf : ∀ x, p (f x) = p x) :
    ∀ (l : List α) (a : α), l.find? p = some a →
      (update_first p f l).find? p = some (f a) := by
  intro l
  induction l with
  | nil => intro a h; simp at h
  | cons x xs ih =>
    intro a h
    by_cases hp : p x = true
    · rw [List.find?_cons_of_pos _ hp] at h
      cases h
      rw [update_first, if_pos hp]
      exact List.find?_cons_of_pos _ (by rw [hf]; exact hp)
    · rw [List.find?_cons_of_neg _ hp] at h
      rw [update_first, if_neg hp]
      rw [List.find?_cons_of_neg _ hp]
      exact ih a h

/-- C2 amended: `add_application` and `get_pending_applications` never
change any application's status, but `process_application` does not
enforce the pending-only rule: whenever an application with the given id
exists it reports success and overwrites that application's status with
the given value regardless of the previous status — so a non-pending
status can change again; when the id is absent it fails and changes
nothing. The pending→approved/rejected-once discipline is the caller's
responsibility. -/
theorem process_application_unconditional (apps : List Application)
    (id st : String) :
    ((process_application apps id st).1 = true ↔
      ∃ a ∈ apps, a.application_id = id) ∧
    ((process_application apps id st).1 = false →
      (process_application apps id st).2 = apps) ∧
    ((process_application apps id st).1 = true →
      ∃ a, ((process_application apps id st).2).find?
          (fun x => x.application_id == id) = some a ∧ a.app_status = st) ∧
    (∀ fid now t c u,
      ((add_application apps fid now t c u).2).map Application.app_status =
        apps.map Application.app_status ++ ["待处理"]) := by
  have hiff : (apps.find? (fun a => a.application_id == id)).isSome ↔
      ∃ a ∈ apps, a.application_id = id := by
    simp [List.find?_isSome]
  cases h : apps.find? (fun a => a.application_id == id) with
  | none =>
    have hne : ¬ ∃ a ∈ apps, a.application_id = id := by
      rw [← hiff, h]
      simp
    refine ⟨by simp [process_application, h, hne], ?_, ?_, ?_⟩
    · intro
      simp [process_application, h]
    · intro hc
      simp [process_application, h] at hc
    · intro fid now t c u
      simp [add_application, new_application]
  | some a =>
    have hex : ∃ x ∈ apps, x.application_id = id := by
      rw [← hiff, h]
      simp
    refine ⟨by simp [process_application, h, hex], ?_, ?_, ?_⟩
    · intro hc
      simp [process_application, h] at hc
    · intro
      refine ⟨{ a with app_status := st }, ?_, rfl⟩
      have hupd := find?_update_first (fun x => x.application_id == id)
        (fun x => { x with app_status := st }) (fun x => rfl) apps a h
      simpa [process_application, h] using hupd
    · intro fid now t c u
      simp [add_application, new_application]

/-- Witness for the amended C2 at a concrete input. -/
theorem process_application_unconditional_witness :
    ((process_application [decided_app] "a1" "拒绝").2).find?
        (fun x => x.application_id == "a1") =
      some { decided_app with app_status := "拒绝" } := by
  have h := (process_application_unconditional [decided_app] "a1" "拒绝").2.2.1
    (by decide)
  obtain ⟨a, hfind, hst⟩ := h
  have : a = { decided_app with app_status := "拒绝" } := by
    have hv : (process_application [decided_app] "a1" "拒绝").2 =
        [{ decided_app with app_status := "拒绝" }] := by decide
    rw [hv] at hfind
    exact ((by simpa [decided_app, List.find?] using hfind : _ = a)).symm
  rw [← this]
  exact hfind

/-- In-memory state of `ItemController`: its item list plus the data
directory it persists to. -/
structure ItemControllerState where
  items : List Item
  store : Store ItemDict

/-- In-memory state of `TypeController`. -/
structure TypeControllerState where
  item_types : List ItemType
  store : Store ItemTypeDict

/-- In-memory state of `DemandController`. -/
structure DemandControllerState where
  demands : List Demand
  store : Store DemandDict

/-- In-memory state of `ApplicationController`. -/
structure ApplicationControllerState where
  applications : List Application
  store : Store ApplicationDict

/-- `ItemController.get_all_items` as a state transformer: its body is a
single list comprehension over `self.items`, with no assignment and no
`save_data` call, so the state it returns is the state it received. -/
def get_all_items_op (s : ItemControllerState) :
    List Item × ItemControllerState :=
  (get_all_items s.items, s)

/-- `ItemController.search_items` as a state transformer (read-only body,
as above). -/
def search_items_op (s : ItemControllerState)
    (item_type keyword : Option String) :
    List Item × ItemControllerState :=
  (search_items s.items item_type keyword, s)

/-- `ItemController.get_user_items` as a state transformer. -/
def get_user_items_op (s : ItemControllerState) (user_id : String) :
    List Item × ItemControllerState :=
  (get_user_items s.items user_id, s)

/-- `ItemController.delete_item` as a state transformer: on success it
writes the shrunk list back through `save_data` (included to make the
contrast with the read-only queries explicit). -/
def delete_item_op (s : ItemControllerState) (item_id user_id : String) :
    Bool × ItemControllerState :=
  match delete_item s.items item_id user_id with
  | (false, _) => (false, s)
  | (true, items2) =>
    (true, { items := items2,
             store := save_data Item.to_dict s.store "items" items2 })

/-- `TypeController.get_all_types` as a state transformer. -/
def get_all_types_op (s : TypeControllerState) :
    List ItemType × TypeControllerState :=
  (get_all_types s.item_types, s)

/-- `DemandController.get_all_demands` as a state transformer. -/
def get_all_demands_op (s : DemandControllerState) :
    List Demand × DemandControllerState :=
  (get_all_demands s.demands, s)

/-- `DemandController.get_user_demands` as a state transformer. -/
def get_user_demands_op (s : DemandControllerState) (user_id : String) :
    List Demand × DemandControllerState :=
  (get_user_demands s.demands user_id, s)

/-- `ApplicationController.get_pending_applications` as a state
transformer. -/
def get_pending_applications_op (s : ApplicationControllerState) :
    List Application × ApplicationControllerState :=
  (get_pending_applications s.applications, s)

/-- C9: every query operation — search_items, get_all_items,
get_user_items, get_all_types, get_all_demands, get_user_demands,
get_pending_applications — is read-only: for every state it leaves both
the in-memory collection and the persisted storage exactly as they were
(no save is performed, no element added, removed, reordered or
mutated). -/
theorem queries_read_only (si : ItemControllerState)
    (st : TypeControllerState) (sd : DemandControllerState)
    (sa : ApplicationControllerState)
    (item_type keyword : Option String) (user_id : String) :
    (search_items_op si item_type keyword).2 = si ∧
    (get_all_items_op si).2 = si ∧
    (get_user_items_op si user_id).2 = si ∧
    (get_all_types_op st).2 = st ∧
    (get_all_demands_op sd).2 = sd ∧
    (get_user_demands_op sd user_id).2 = sd ∧
    (get_pending_applications_op sa).2 = sa :=
  ⟨rfl, rfl, rfl, rfl, rfl, rfl, rfl⟩
